import Mathlib

/-!
Verification of the project-document model and chapter workflow of the
`writer` application (`src/main.py`), a Streamlit tool for co-writing
serialized fiction with a remote text-generation backend.

The embedding follows the Python source closely:

* Project documents are the JSON documents that `save_project` writes and
  `load_project` reads: a `created` string, an optional `plot` string
  (`project.get("plot", "")` tolerates its absence), a list of characters
  (each a `name`/`description` pair) and a list of chapters (each an
  `instruction`, a `text`, and an optional `versions` list — legacy
  chapters may lack the `versions` key, which `regenerate_chapter` and the
  copy handler tolerate via `"versions" not in chapter` / `chapter.get`).
  Optional fields are `Option`s, mirroring presence of the JSON key.
* The on-disk store is a map from file path to stored document.  A
  `save_project` is a whole-document overwrite at the computed path; a
  `load_project` is a lookup at the same path.  The file content is
  modeled as the parsed JSON document itself: `json.dump`/`json.load`
  serialize a document tree to text and back, and a JSON text has no
  structure sharing, so the value deserialized by the next script run is
  an independent tree even when the in-memory dict that was saved aliased
  sub-objects.  Every Streamlit button handler ends with
  `save_project` + `safe_refresh()` (which calls `st.stop()`), so each
  user event is a complete load → mutate → save cycle on the store.
* The HTTP layer (`requests.post`, `raise_for_status`, `r.json()`) is an
  oracle value (`HttpOutcome`) describing what the single POST of a call
  would produce: a transport-level failure, or a response with a status
  code and a body that either parses as JSON or not.
  `requests.exceptions.RequestException` covers transport errors, the
  `HTTPError` from `raise_for_status` (raised for statuses 400–599) and
  the `JSONDecodeError` from `r.json()`; Python faults that are *not*
  RequestExceptions (KeyError, TypeError, IndexError, ValueError) escape
  the `try`/`except` and are modeled as the `.error` side of `Except`.
* The successful-generation workflow (`gen_chapter` button, commit button,
  `regenerate_chapter`) is parameterized by a generator oracle
  `g : String → String` mapping the built prompt to the produced text.
-/

namespace Writer

/-- One entry of `project["characters"]`: a dict with `name` and
`description` string fields. -/
structure Character where
  name : String
  description : String
deriving Repr, DecidableEq

/-- One entry of `project["chapters"]`: a dict with `instruction` and
`text` string fields and an optional `versions` list of strings
(`versions = none` models a legacy chapter dict without the key). -/
structure Chapter where
  instruction : String
  text : String
  versions : Option (List String)
deriving Repr, DecidableEq

/-- A project document as written by `save_project`:
`{"created": ..., "characters": [...], "chapters": [...], "plot": ...}`.
`plot = none` models a document without the `plot` key, tolerated by
`project.get("plot", "")` in `build_prompt`. -/
structure Project where
  created : String
  plot : Option String
  characters : List Character
  chapters : List Chapter
deriving Repr, DecidableEq

/-! ## Project store (`list_projects` / `load_project` / `save_project`) -/

/-- The file system under `data/projects`, as a path-keyed association
list; writing prepends, reading takes the most recent write (Python's
`open(path, "w")` overwrite).  File content is the parsed JSON document
(see the header: JSON text stores a tree, so no sharing survives a
save/load cycle). -/
def Store := List (String × Project)

/-- `os.path.join(PROJECTS_DIR, f"{project_name}.json")`. -/
def projPath (project_name : String) : String :=
  "data/projects/" ++ project_name ++ ".json"

/-- `save_project`: serialize the full document to the project's path,
overwriting any prior content. -/
def save_project (st : Store) (project_name : String) (data : Project) : Store :=
  (projPath project_name, data) :: st

/-- `load_project`: `None` when the path does not exist, otherwise the
parsed document. -/
def load_project (st : Store) (project_name : String) : Option Project :=
  List.lookup (projPath project_name) st

/-- The `create_proj` button handler: `if new_name:` guards only against
an empty name, then saves a fresh empty project document under that name
unconditionally — there is no check against an existing project.  The
`created` timestamp `str(datetime.now())` is passed in as `now`. -/
def create_proj (st : Store) (new_name : String) (now : String) : Store :=
  if new_name ≠ "" then
    save_project st new_name
      { created := now, plot := some "", characters := [], chapters := [] }
  else st

/-! ## Prompt builder (`build_prompt`) -/

/-- Python `str.strip()` whitespace class (the characters relevant to
`build_prompt`, whose stripped ends are ASCII). -/
def isPySpace (c : Char) : Bool :=
  c = ' ' || c = '\t' || c = '\n' || c = '\r' || c = '\x0b' || c = '\x0c'

/-- Python `str.strip()`: drop leading and trailing whitespace. -/
def pyStrip (s : String) : String :=
  ⟨((s.data.dropWhile isPySpace).reverse.dropWhile isPySpace).reverse⟩

/-- The rendered character roster:
`"\n".join([f"- {c['name']}: {c['description']}" for c in project["characters"]])`. -/
def renderCharacters (characters : List Character) : String :=
  String.intercalate "\n"
    (characters.map fun c => "- " ++ c.name ++ ": " ++ c.description)

/-- The rendered chapter history:
`"\n\n".join([f"Kapitola {i+1}:\n{ch['text']}" for i, ch in enumerate(project["chapters"])])`. -/
def renderChapters (chapters : List Chapter) : String :=
  String.intercalate "\n\n"
    (chapters.enum.map fun ic =>
      "Kapitola " ++ toString (ic.1 + 1) ++ ":\n" ++ ic.2.text)

/-- The body of the f-string template of `build_prompt`, before
`.strip()`: a leading newline, the fixed headers, the interpolated plot,
character roster, chapter history, and instruction, and the fixed closing
constraint text, ending with a newline. -/
def promptTemplate (plot characters previous_chapters chapter_instruction : String) :
    String :=
  "\nPlán knihy:\n" ++ plot ++
  "\n\nJsi profesionální český spisovatel beletrie.\n\n=== POSTAVY (MUSÍ ZŮSTAT KONZISTENTNÍ) ===\n" ++
  characters ++
  "\n\n=== DOSAVADNÍ DĚJ ===\n" ++
  previous_chapters ++
  "\n\n=== INSTRUKCE PRO NOVOU KAPITOLU ===\n" ++
  chapter_instruction ++
  "\n\nNapiš plnohodnotnou kapitolu v češtině.\nDbej na kontinuitu děje, konzistenci postav, dramatické dialogy a emocionální hloubku. Nepiš nic jako číslo, nebo název kapitoly, ani \"konec kapitoly\".\n"

/-- `build_prompt(project, chapter_instruction)`: fills the template from
the project state and strips the outer whitespace. -/
def build_prompt (project : Project) (chapter_instruction : String) : String :=
  pyStrip (promptTemplate (project.plot.getD "")
    (renderCharacters project.characters)
    (renderChapters project.chapters)
    chapter_instruction)

/-! ## Generation client (`generate_chapter` / `call_openai` / `call_ollama`) -/

/-- Python exceptions that are *not* `requests.exceptions.RequestException`
and therefore escape the `try`/`except` blocks of the call functions. -/
inductive PyErr where
  | keyError (k : String)
  | typeError
  | indexError
  | valueError (msg : String)
deriving Repr, DecidableEq

/-- JSON values, the result type of `r.json()`. -/
inductive Json where
  | null
  | bool (b : Bool)
  | num (n : Int)
  | str (s : String)
  | arr (elems : List Json)
  | obj (fields : List (String × Json))

/-- Python subscript `j[k]` with a string key: a lookup on a dict
(`KeyError` when the key is missing), `TypeError` on any other value. -/
def Json.getKey : Json → String → Except PyErr Json
  | .obj fields, k =>
    match List.lookup k fields with
    | some v => .ok v
    | none => .error (.keyError k)
  | _, _ => .error .typeError

/-- Python subscript `j[i]` with an integer index: list indexing
(`IndexError` when out of range), `KeyError` on a dict (JSON object keys
are strings, so an integer key is never present), `TypeError` otherwise. -/
def Json.getIdx : Json → Nat → Except PyErr Json
  | .arr elems, i =>
    match elems.get? i with
    | some v => .ok v
    | none => .error .indexError
  | .obj _, i => .error (.keyError (toString i))
  | _, _ => .error .typeError

/-- The observable outcome of the single `requests.post` of a call:
either the POST itself raises a transport-level `RequestException`
(carrying its rendered message), or a response arrives with a status
code, the message an `HTTPError` for that status would render, and a
body that either parses as JSON or fails to
(`.error` carries the rendered decode-error message). -/
inductive HttpOutcome where
  | transportError (msg : String)
  | response (status : Nat) (statusMsg : String) (body : Except String Json)

/-- A `models.json` entry as consumed by the call functions.
`api_key_env = none` models `cfg.get("api_key_env")` returning `None`
(key absent). The temperature / max-tokens sliders only shape the request
payload, which the response oracle already accounts for. -/
structure ModelConfig where
  label : String
  provider : String
  endpoint : String
  model : String
  api_key_env : Option String
deriving Repr, DecidableEq

/-- `st.secrets.get(k)` where `k` is `cfg.get("api_key_env")`:
`None` when the argument is `None` or the secret is absent. -/
def secretsGet (secrets : String → Option String) : Option String → Option String
  | none => none
  | some k => secrets k

/-- Python truthiness test `not api_key` on `None`-or-string:
true for `None` and for the empty string. -/
def pyFalsy : Option String → Bool
  | none => true
  | some s => s = ""

/-- `raise_for_status()` raises an `HTTPError` exactly for
client- and server-error statuses (400–599). -/
def raiseForStatus (status : Nat) : Bool :=
  400 ≤ status && status < 600

/-- `call_openai(prompt, cfg)`.  Returns the Python value the function
produces (an error string on the handled failure paths, otherwise
`r.json()["choices"][0]["message"]["content"]`) paired with whether the
network POST was performed.  Only `RequestException`s (transport error,
`HTTPError` from `raise_for_status`, JSON decode error) are caught and
turned into `"CHYBA: ..."` strings; subscript failures on a decoded body
escape as `.error`. -/
def call_openai (secrets : String → Option String) (cfg : ModelConfig)
    (net : HttpOutcome) : Except PyErr Json × Bool :=
  let api_key := secretsGet secrets cfg.api_key_env
  if pyFalsy api_key then
    (.ok (.str "CHYBA: API klíč není v secrets."), false)
  else
    match net with
    | .transportError msg =>
      (.ok (.str ("CHYBA: Nelze se připojit k API: " ++ msg)), true)
    | .response status statusMsg body =>
      if raiseForStatus status then
        (.ok (.str ("CHYBA: Nelze se připojit k API: " ++ statusMsg)), true)
      else
        match body with
        | .error msg =>
          (.ok (.str ("CHYBA: Nelze se připojit k API: " ++ msg)), true)
        | .ok j =>
          ((j.getKey "choices").bind fun choices =>
            (choices.getIdx 0).bind fun choice =>
              (choice.getKey "message").bind fun message =>
                message.getKey "content", true)

/-- `call_ollama(prompt, cfg)`: same `try`/`except RequestException`
shape, no credential check, result `r.json()["response"]`. -/
def call_ollama (_cfg : ModelConfig) (net : HttpOutcome) :
    Except PyErr Json × Bool :=
  match net with
  | .transportError msg =>
    (.ok (.str ("CHYBA: Nelze se připojit k Ollama endpointu: " ++ msg)), true)
  | .response status statusMsg body =>
    if raiseForStatus status then
      (.ok (.str ("CHYBA: Nelze se připojit k Ollama endpointu: " ++ statusMsg)), true)
    else
      match body with
      | .error msg =>
        (.ok (.str ("CHYBA: Nelze se připojit k Ollama endpointu: " ++ msg)), true)
      | .ok j => (j.getKey "response", true)

/-- `generate_chapter(prompt, model_cfg)`: dispatch on the provider;
an unknown provider raises `ValueError("Neznámý provider")` uncaught. -/
def generate_chapter (secrets : String → Option String) (cfg : ModelConfig)
    (net : HttpOutcome) : Except PyErr Json × Bool :=
  if cfg.provider = "openai" then call_openai secrets cfg net
  else if cfg.provider = "ollama" then call_ollama cfg net
  else (.error (.valueError "Neznámý provider"), false)

/-! ## Chapter workflow

The successful-generation path is parameterized by a generator oracle
`g : String → String` mapping the prompt `generate_chapter` was given to
the text it returned, so the workflow theorems quantify over every
possible backend behavior. -/

/-- The `gen_chapter` button handler: build the prompt from the current
project and the staged instruction, generate, and stage
`{"instruction": ..., "text": ..., "versions": [chapter_text]}` in
session state (not yet in `project["chapters"]`). -/
def gen_chapter (g : String → String) (project : Project)
    (chapter_instruction : String) : Chapter :=
  let chapter_text := g (build_prompt project chapter_instruction)
  { instruction := chapter_instruction
    text := chapter_text
    versions := some [chapter_text] }

/-- The commit button (`Uložit kapitolu do projektu`): append the staged
chapter to `project["chapters"]`. -/
def commit_chapter (project : Project) (new_ch : Chapter) : Project :=
  { project with chapters := project.chapters ++ [new_ch] }

/-- `regenerate_chapter(project, chapter_index, model_cfg)`: look up the
chapter (Python raises `IndexError` past the end — the UI only passes
enumeration indices), rebuild the prompt from the chapter's stored
instruction and the *current* project state, generate, initialize
`versions` to `[chapter["text"]]` when the key is absent, append the new
text and cache it in `text`. -/
def regenerate_chapter (g : String → String) (project : Project)
    (chapter_index : Nat) : Except PyErr Project :=
  match project.chapters.get? chapter_index with
  | none => .error .indexError
  | some chapter =>
    let prompt := build_prompt project chapter.instruction
    let new_text := g prompt
    let versions := chapter.versions.getD [chapter.text]
    let chapter' : Chapter :=
      { chapter with versions := some (versions ++ [new_text]), text := new_text }
    .ok { project with chapters := project.chapters.set chapter_index chapter' }

/-- `n` successive presses of the regenerate button on the same chapter
position. -/
def regenIter (g : String → String) (chapter_index : Nat) :
    Nat → Project → Except PyErr Project
  | 0, project => .ok project
  | n + 1, project =>
    (regenerate_chapter g project chapter_index).bind (regenIter g chapter_index n)

/-- The copy button handler (`Přidat verzi jako samostatnou`): append a
new chapter dict carrying the source chapter's instruction, text and
versions (defaulting to `[chapter["text"]]` when the key is absent).
The dict literal gives the new chapter its own `versions` *key*; the
stored document is a JSON tree, so after the handler's save the two
chapters' version lists are independent (see the header). -/
def duplicate_chapter (project : Project) (chapter_index : Nat) :
    Except PyErr Project :=
  match project.chapters.get? chapter_index with
  | none => .error .indexError
  | some chapter =>
    .ok { project with
          chapters := project.chapters ++
            [{ instruction := chapter.instruction
               text := chapter.text
               versions := some (chapter.versions.getD [chapter.text]) }] }

/-- `chapterAt p i` = `p["chapters"][i]` read non-fatally. -/
def chapterAt (project : Project) (i : Nat) : Option Chapter :=
  project.chapters.get? i

/-! ### Store-level events

Each button handler runs in a fresh script run: the project is read with
`load_project`, mutated, written back with `save_project`, and the run
stops (`safe_refresh`).  The store-level events compose handlers the way
the app does, with the JSON round trip between them. -/

/-- One press of the copy button on chapter `i` of project `name`:
load, duplicate, save.  A press on a missing project or index does not
reach `save_project`. -/
def dup_event (st : Store) (name : String) (i : Nat) : Store :=
  match load_project st name with
  | none => st
  | some project =>
    match duplicate_chapter project i with
    | .ok project' => save_project st name project'
    | .error _ => st

/-- One press of the regenerate button on chapter `i` of project `name`:
load, regenerate, save. -/
def regen_event (g : String → String) (st : Store) (name : String) (i : Nat) :
    Store :=
  match load_project st name with
  | none => st
  | some project =>
    match regenerate_chapter g project i with
    | .ok project' => save_project st name project'
    | .error _ => st

/-! ## Deletion (`del` and `del_char` button handlers) -/

/-- Python `list.pop(i)`: negative indices count from the end; an index
outside `[-len, len)` raises `IndexError`; otherwise the element is
removed and returned. -/
def pyPop (l : List α) (i : Int) : Except PyErr (α × List α) :=
  let j : Int := if i < 0 then i + l.length else i
  if 0 ≤ j ∧ j < l.length then
    match l.get? j.toNat with
    | some a => .ok (a, l.eraseIdx j.toNat)
    | none => .error .indexError
  else .error .indexError

/-- The `Smazat kapitolu` handler body, `project["chapters"].pop(i)`:
on success the project with the chapter removed is saved; on
`IndexError` the handler dies before `save_project`, so no mutated
project exists. -/
def delete_chapter (project : Project) (i : Int) : Except PyErr Project :=
  (pyPop project.chapters i).map fun popped =>
    { project with chapters := popped.2 }

/-- The `Smazat` character handler body, `project["characters"].pop(i)`. -/
def delete_character (project : Project) (i : Int) : Except PyErr Project :=
  (pyPop project.characters i).map fun popped =>
    { project with characters := popped.2 }

/-! ## Theorems -/

/-- C5. Round-trip: for every project document, `save_project` under a
name followed by `load_project` of that name yields the document back,
structurally equal field for field — `Project` equality is structural and
the `characters` and `chapters` lists keep their order. -/
theorem save_load_roundtrip (st : Store) (name : String) (p : Project) :
    load_project (save_project st name p) name = some p := by
  simp [load_project, save_project, List.lookup]

/-- C6. Prompt determinism: `build_prompt` is a function of the project
and the instruction alone (no hidden state, no randomness in the
embedding, matching the source, which reads only its two arguments), so
two calls on identical inputs yield identical strings. -/
theorem build_prompt_deterministic (p p' : Project) (instr instr' : String)
    (hp : p = p') (hi : instr = instr') :
    build_prompt p instr = build_prompt p' instr' := by
  rw [hp, hi]

/-- Witness for C6 at a concrete project and instruction. -/
theorem build_prompt_deterministic_witness :
    build_prompt
        { created := "t", plot := some "A family drama",
          characters := [{ name := "Anna", description := "protagonist" }],
          chapters := [] } "Anna discovers a letter"
      = build_prompt
        { created := "t", plot := some "A family drama",
          characters := [{ name := "Anna", description := "protagonist" }],
          chapters := [] } "Anna discovers a letter" :=
  build_prompt_deterministic _ _ _ _ rfl rfl

/-- The project document stored before the colliding `create_proj` press
in the C3 counterexample: a non-empty project named `X`. -/
def preexistingProj : Project :=
  { created := "2024-01-01"
    plot := some "A family drama"
    characters := [{ name := "Anna", description := "protagonist" }]
    chapters := [{ instruction := "ch1", text := "Anna opened the letter.",
                   versions := some ["Anna opened the letter."] }] }

/-- C3 counterexample: the `create_proj` handler run on a name that
collides with the persisted project `X` does not fail with any
`AlreadyExists` error — it overwrites: afterwards the stored document for
`X` is the fresh empty project, not the previously stored one. -/
theorem create_proj_overwrites :
    load_project (create_proj (save_project [] "X" preexistingProj) "X" "2024-02-02") "X"
        = some { created := "2024-02-02", plot := some "",
                 characters := [], chapters := [] }
      ∧ load_project (create_proj (save_project [] "X" preexistingProj) "X" "2024-02-02") "X"
        ≠ some preexistingProj := by
  constructor
  · rfl
  · decide

/-- C3 amended: project creation performs no collision check at all.
For every store and non-empty name — colliding or not — the handler
saves a fresh empty project document under that name, replacing whatever
was stored there. -/
theorem create_proj_unconditional_save (st : Store) (name now : String)
    (hname : name ≠ "") :
    load_project (create_proj st name now) name
      = some { created := now, plot := some "", characters := [], chapters := [] } := by
  rw [create_proj, if_pos hname]
  exact save_load_roundtrip st name _

/-- Witness for the amended C3 at a concrete store and name. -/
theorem create_proj_unconditional_save_witness :
    load_project (create_proj (save_project [] "X" preexistingProj) "X" "2024-02-02") "X"
      = some { created := "2024-02-02", plot := some "",
               characters := [], chapters := [] } :=
  create_proj_unconditional_save (save_project [] "X" preexistingProj)
    "X" "2024-02-02" (by decide)

/-- C8. Missing credential: for every secret store and response oracle,
a `generate_chapter` call on an `openai` configuration whose
`api_key_env` resolves to nothing (the key is absent, the secret is
missing, or the secret is the empty string — Python's `not api_key`)
returns the visible error string `CHYBA: API klíč není v secrets.` as an
ordinary value (no exception) and performs no network POST. -/
theorem missing_credential_no_network (secrets : String → Option String)
    (cfg : ModelConfig) (net : HttpOutcome)
    (hp : cfg.provider = "openai")
    (hk : pyFalsy (secretsGet secrets cfg.api_key_env) = true) :
    generate_chapter secrets cfg net
      = (.ok (.str "CHYBA: API klíč není v secrets."), false) := by
  rw [generate_chapter, if_pos hp]
  simp [call_openai, hk]

/-- Witness for C8: a configuration without an `api_key_env` entry, an
arbitrary secret store and a would-be successful response. -/
theorem missing_credential_no_network_witness :
    generate_chapter (fun _ => none)
        { label := "GPT", provider := "openai", endpoint := "https://api.example/v1",
          model := "gpt-4o", api_key_env := none }
        (.response 200 "" (.ok (.str "hello")))
      = (.ok (.str "CHYBA: API klíč není v secrets."), false) :=
  missing_credential_no_network (fun _ => none) _ _ rfl rfl

/-- The C4 counterexample configuration: a plain `openai` entry whose
credential resolves. -/
def openaiCfg : ModelConfig :=
  { label := "GPT", provider := "openai", endpoint := "https://api.example/v1",
    model := "gpt-4o", api_key_env := some "OPENAI_API_KEY" }

/-- The secret store of the C4 counterexample: the referenced key is
present and non-empty. -/
def secretsWithKey : String → Option String := fun k =>
  if k = "OPENAI_API_KEY" then some "sk-test" else none

/-- C4 counterexample: a 200 response whose body is well-formed JSON but
lacks the expected `choices` structure makes the generation call raise an
uncaught `KeyError` — an exception escaping the generation-client
boundary, not a returned error value.  (Only
`requests.exceptions.RequestException` is caught; the subscripts on the
decoded body are outside any handler.) -/
theorem generation_malformed_body_raises :
    (generate_chapter secretsWithKey openaiCfg
        (.response 200 "" (.ok (.obj [])))).1
      = .error (.keyError "choices") := rfl

/-- The request-level failures that the `try`/`except
requests.exceptions.RequestException` blocks do catch: the POST raising a
transport error, `raise_for_status` raising on a 400–599 status, or
`r.json()` failing to decode the body. -/
def requestFailure : HttpOutcome → Prop
  | .transportError _ => True
  | .response status _ body =>
    raiseForStatus status = true ∨ ∃ msg, body = .error msg

/-- C4 amended: for the two known providers, every *request-level*
failure (transport fault, non-success status, body that fails JSON
decoding) is caught and returned as an ordinary `"CHYBA: ..."` string
value (never an escaping exception); but — per
`generation_malformed_body_raises` — a decodable body of the wrong shape
raises uncaught, and an unknown provider raises `ValueError`. -/
theorem generation_request_failure_returns_error_string
    (secrets : String → Option String) (cfg : ModelConfig) (net : HttpOutcome)
    (hp : cfg.provider = "openai" ∨ cfg.provider = "ollama")
    (hf : requestFailure net) :
    ∃ rest, (generate_chapter secrets cfg net).1 = .ok (.str ("CHYBA: " ++ rest)) := by
  have chyba : ∀ pre msg : String,
      ("CHYBA: " ++ pre) ++ msg = "CHYBA: " ++ (pre ++ msg) := by
    intro pre msg
    exact String.append_assoc _ _ _
  rcases hp with hp | hp
  · rw [generate_chapter, if_pos hp]
    by_cases hk : pyFalsy (secretsGet secrets cfg.api_key_env) = true
    · exact ⟨"API klíč není v secrets.", by simp [call_openai, hk]⟩
    · cases net with
      | transportError msg =>
        exact ⟨"Nelze se připojit k API: " ++ msg,
          by simp [call_openai, hk]; rw [← chyba]; rfl⟩
      | response status statusMsg body =>
        rcases hf with hs | ⟨msg, hb⟩
        · exact ⟨"Nelze se připojit k API: " ++ statusMsg,
            by simp [call_openai, hk, hs]; rw [← chyba]; rfl⟩
        · subst hb
          by_cases hs : raiseForStatus status = true
          · exact ⟨"Nelze se připojit k API: " ++ statusMsg,
              by simp [call_openai, hk, hs]; rw [← chyba]; rfl⟩
          · exact ⟨"Nelze se připojit k API: " ++ msg,
              by simp [call_openai, hk, hs]; rw [← chyba]; rfl⟩
  · rw [generate_chapter, hp]
    cases net with
    | transportError msg =>
      exact ⟨"Nelze se připojit k Ollama endpointu: " ++ msg,
        by simp [call_ollama]; rw [← chyba]; rfl⟩
    | response status statusMsg body =>
      rcases hf with hs | ⟨msg, hb⟩
      · exact ⟨"Nelze se připojit k Ollama endpointu: " ++ statusMsg,
          by simp [call_ollama, hs]; rw [← chyba]; rfl⟩
      · subst hb
        by_cases hs : raiseForStatus status = true
        · exact ⟨"Nelze se připojit k Ollama endpointu: " ++ statusMsg,
            by simp [call_ollama, hs]; rw [← chyba]; rfl⟩
        · exact ⟨"Nelze se připojit k Ollama endpointu: " ++ msg,
            by simp [call_ollama, hs]; rw [← chyba]; rfl⟩

/-- Witness for the amended C4: a concrete transport failure against the
`openai` configuration yields an ordinary `CHYBA` error string. -/
theorem generation_request_failure_returns_error_string_witness :
    ∃ rest, (generate_chapter secretsWithKey openaiCfg
        (.transportError "Connection refused")).1
      = .ok (.str ("CHYBA: " ++ rest)) :=
  generation_request_failure_returns_error_string secretsWithKey openaiCfg
    (.transportError "Connection refused") (Or.inl rfl) trivial

/-- Removing index `i` leaves the entries before `i` in place. -/
theorem get?_eraseIdx_lt :
    ∀ (l : List α) (i j : Nat), j < i → (l.eraseIdx i).get? j = l.get? j := by
  intro l
  induction l with
  | nil => intro i j _; rfl
  | cons a t ih =>
    intro i j hj
    cases i with
    | zero => omega
    | succ i =>
      cases j with
      | zero => rfl
      | succ j => simpa using ih i j (by omega)

/-- Removing index `i` shifts every later entry down by one. -/
theorem get?_eraseIdx_ge :
    ∀ (l : List α) (i j : Nat), i ≤ j → i < l.length →
      (l.eraseIdx i).get? j = l.get? (j + 1) := by
  intro l
  induction l with
  | nil => intro i j _ h; simp at h
  | cons a t ih =>
    intro i j hij hlen
    cases i with
    | zero => rfl
    | succ i =>
      cases j with
      | zero => omega
      | succ j => simpa using ih i j (by omega) (by simpa using hlen)

/-- `list.pop(i)` on an index outside `[-len, len)` raises `IndexError`. -/
theorem pyPop_out_of_range (l : List α) (i : Int)
    (h : i < -(l.length : Int) ∨ (l.length : Int) ≤ i) :
    pyPop l i = .error .indexError := by
  simp only [pyPop]
  split <;> split <;> first | rfl | (exfalso; omega)

/-- `list.pop(i)` on a non-negative in-range index removes exactly the
element at that position. -/
theorem pyPop_in_range (l : List α) (i : Int)
    (h0 : 0 ≤ i) (h1 : i < (l.length : Int)) :
    ∃ a, l.get? i.toNat = some a ∧ pyPop l i = .ok (a, l.eraseIdx i.toNat) := by
  have hni : ¬i < 0 := by omega
  have hlt : i.toNat < l.length := by omega
  obtain ⟨a, ha⟩ : ∃ a, l.get? i.toNat = some a := by
    simp only [List.get?_eq_getElem?, List.getElem?_eq_some_iff]
    exact ⟨l[i.toNat], hlt, rfl⟩
  refine ⟨a, ha, ?_⟩
  simp only [pyPop, if_neg hni]
  rw [if_pos ⟨h0, h1⟩, ha]

/-- C9. Index safety of the two deletion handlers
(`project["chapters"].pop(i)` and `project["characters"].pop(i)`):
an index outside Python's valid range raises `IndexError` — the handler
dies before `save_project`, so no modified sequence is produced and the
stored one is untouched; a valid non-negative index removes exactly the
element at that position, the sequence shrinks by one, the entries before
it are untouched, and every later entry shifts down by one. -/
theorem deletion_index_safety (p : Project) (i : Int) :
    ((i < -(p.chapters.length : Int) ∨ (p.chapters.length : Int) ≤ i) →
      delete_chapter p i = .error .indexError)
    ∧ ((i < -(p.characters.length : Int) ∨ (p.characters.length : Int) ≤ i) →
      delete_character p i = .error .indexError)
    ∧ (0 ≤ i → i < (p.chapters.length : Int) →
      ∃ p', delete_chapter p i = .ok p' ∧
        p'.chapters = p.chapters.eraseIdx i.toNat ∧
        p'.chapters.length + 1 = p.chapters.length ∧
        (∀ j : Nat, (j : Int) < i → p'.chapters.get? j = p.chapters.get? j) ∧
        (∀ j : Nat, i ≤ (j : Int) → p'.chapters.get? j = p.chapters.get? (j + 1)) ∧
        p'.characters = p.characters ∧ p'.plot = p.plot ∧ p'.created = p.created)
    ∧ (0 ≤ i → i < (p.characters.length : Int) →
      ∃ p', delete_character p i = .ok p' ∧
        p'.characters = p.characters.eraseIdx i.toNat ∧
        p'.characters.length + 1 = p.characters.length ∧
        (∀ j : Nat, (j : Int) < i → p'.characters.get? j = p.characters.get? j) ∧
        (∀ j : Nat, i ≤ (j : Int) → p'.characters.get? j = p.characters.get? (j + 1)) ∧
        p'.chapters = p.chapters ∧ p'.plot = p.plot ∧ p'.created = p.created) := by
  refine ⟨?_, ?_, ?_, ?_⟩
  · intro h
    rw [delete_chapter, pyPop_out_of_range _ _ h]
    rfl
  · intro h
    rw [delete_character, pyPop_out_of_range _ _ h]
    rfl
  · intro h0 h1
    obtain ⟨a, _, hpop⟩ := pyPop_in_range p.chapters i h0 h1
    have hlt : i.toNat < p.chapters.length := by omega
    refine ⟨{ p with chapters := p.chapters.eraseIdx i.toNat }, ?_, rfl, ?_, ?_, ?_, rfl, rfl, rfl⟩
    · rw [delete_chapter, hpop]; rfl
    · simpa using List.length_eraseIdx_add_one hlt
    · intro j hj
      exact get?_eraseIdx_lt p.chapters i.toNat j (by omega)
    · intro j hj
      exact get?_eraseIdx_ge p.chapters i.toNat j (by omega) hlt
  · intro h0 h1
    obtain ⟨a, _, hpop⟩ := pyPop_in_range p.characters i h0 h1
    have hlt : i.toNat < p.characters.length := by omega
    refine ⟨{ p with characters := p.characters.eraseIdx i.toNat }, ?_, rfl, ?_, ?_, ?_, rfl, rfl, rfl⟩
    · rw [delete_character, hpop]; rfl
    · simpa using List.length_eraseIdx_add_one hlt
    · intro j hj
      exact get?_eraseIdx_lt p.characters i.toNat j (by omega)
    · intro j hj
      exact get?_eraseIdx_ge p.characters i.toNat j (by omega) hlt

/-- Witness for C9 at the concrete project `preexistingProj` (one chapter,
one character): chapter index 3 raises `IndexError`, character index -2
raises `IndexError`, and chapter index 0 deletes the only chapter. -/
theorem deletion_index_safety_witness :
    delete_chapter preexistingProj 3 = .error .indexError
    ∧ delete_character preexistingProj (-2) = .error .indexError
    ∧ ∃ p', delete_chapter preexistingProj 0 = .ok p' ∧
        p'.chapters = preexistingProj.chapters.eraseIdx 0 ∧
        p'.chapters.length + 1 = preexistingProj.chapters.length ∧
        (∀ j : Nat, (j : Int) < 0 → p'.chapters.get? j = preexistingProj.chapters.get? j) ∧
        (∀ j : Nat, (0 : Int) ≤ (j : Int) →
          p'.chapters.get? j = preexistingProj.chapters.get? (j + 1)) ∧
        p'.characters = preexistingProj.characters ∧ p'.plot = preexistingProj.plot ∧
        p'.created = preexistingProj.created :=
  ⟨(deletion_index_safety preexistingProj 3).1 (by decide),
   (deletion_index_safety preexistingProj (-2)).2.1 (by decide),
   (deletion_index_safety preexistingProj 0).2.2.1 (by decide) (by decide)⟩

/-! ### List access lemmas used by the workflow proofs -/

theorem get?_some_lt_length {l : List α} {i : Nat} {a : α}
    (h : l.get? i = some a) : i < l.length := by
  rw [List.get?_eq_getElem?, List.getElem?_eq_some_iff] at h
  exact h.1

theorem get?_set_self (l : List α) (i : Nat) (b : α) (h : i < l.length) :
    (l.set i b).get? i = some b := by
  simp [List.get?_eq_getElem?, List.getElem?_set, h]

theorem get?_set_ne (l : List α) (i j : Nat) (b : α) (h : i ≠ j) :
    (l.set i b).get? j = l.get? j := by
  simp [List.get?_eq_getElem?, List.getElem?_set, h]

theorem get?_concat_len (l : List α) (a : α) : (l ++ [a]).get? l.length = some a := by
  simp [List.get?_eq_getElem?]

theorem get?_append_lt (l l' : List α) (j : Nat) (h : j < l.length) :
    (l ++ l').get? j = l.get? j := by
  simp [List.get?_eq_getElem?, List.getElem?_append_left h]

/-- The chapter value that one regenerate press leaves at the chapter's
position: same instruction, the freshly generated text, and the
(migrated, when the key was absent) version list extended by that text. -/
def regeneratedChapter (g : String → String) (p : Project) (ch : Chapter) : Chapter :=
  { instruction := ch.instruction
    text := g (build_prompt p ch.instruction)
    versions := some (ch.versions.getD [ch.text] ++ [g (build_prompt p ch.instruction)]) }

/-- One regenerate press, unfolded: with a valid index it replaces the
chapter in place with `regeneratedChapter`, leaving every other chapter
and the rest of the project untouched. -/
theorem regenerate_chapter_step (g : String → String) (p : Project) (i : Nat)
    (ch : Chapter) (h : chapterAt p i = some ch) :
    regenerate_chapter g p i
      = .ok { p with chapters := p.chapters.set i (regeneratedChapter g p ch) } := by
  rw [chapterAt] at h
  simp only [regenerate_chapter, h, regeneratedChapter]

/-- C10. Legacy-chapter migration: regenerating a chapter stored without
a `versions` key first initializes `versions` to `[chapter["text"]]` and
then appends the new text, so afterwards `versions` is exactly
`[old text, new text]`, the pre-existing text survives as the first
version, and `text` equals the last version. -/
theorem legacy_migration (g : String → String) (p : Project) (i : Nat)
    (ch : Chapter) (h : chapterAt p i = some ch) (hv : ch.versions = none) :
    ∃ p', regenerate_chapter g p i = .ok p' ∧
      chapterAt p' i = some
        { instruction := ch.instruction
          text := g (build_prompt p ch.instruction)
          versions := some [ch.text, g (build_prompt p ch.instruction)] } := by
  have hlt : i < p.chapters.length := by
    rw [chapterAt] at h
    exact get?_some_lt_length h
  refine ⟨_, regenerate_chapter_step g p i ch h, ?_⟩
  have hre : regeneratedChapter g p ch
      = { instruction := ch.instruction
          text := g (build_prompt p ch.instruction)
          versions := some [ch.text, g (build_prompt p ch.instruction)] } := by
    simp [regeneratedChapter, hv]
  rw [chapterAt, ← hre]
  exact get?_set_self _ _ _ hlt

/-- A one-chapter project whose chapter predates version history
(`versions` key absent). -/
def legacyProj : Project :=
  { created := "2023-05-05"
    plot := some "A family drama"
    characters := [{ name := "Anna", description := "protagonist" }]
    chapters := [{ instruction := "Anna discovers a letter",
                   text := "Anna opened the letter.", versions := none }] }

/-- Witness for C10: regenerating the legacy chapter of `legacyProj`
with a generator that returns `Anna burned the letter.` yields
`versions = [old text, new text]` and `text = new text`. -/
theorem legacy_migration_witness :
    ∃ p', regenerate_chapter (fun _ => "Anna burned the letter.") legacyProj 0 = .ok p' ∧
      chapterAt p' 0 = some
        { instruction := "Anna discovers a letter"
          text := "Anna burned the letter."
          versions := some ["Anna opened the letter.", "Anna burned the letter."] } :=
  legacy_migration (fun _ => "Anna burned the letter.") legacyProj 0
    { instruction := "Anna discovers a letter",
      text := "Anna opened the letter.", versions := none } rfl rfl

/-- C2. Duplicate independence: press the copy button on chapter `i` of
the stored project `name`, then press regenerate on the duplicate (the
chapter appended at position `p.chapters.length`).  The original chapter
at position `i` — its `versions` array included — is unchanged in the
resulting store.  (In the running script the duplicated dict shares its
`versions` list with the original, but the handler saves and stops, and
the next handler works on the freshly parsed JSON document, in which the
two lists are independent.) -/
theorem duplicate_independence (g : String → String) (st : Store) (name : String)
    (i : Nat) (p : Project) (ch : Chapter)
    (hload : load_project st name = some p)
    (hch : chapterAt p i = some ch) :
    ∃ p2, load_project (regen_event g (dup_event st name i) name p.chapters.length) name
        = some p2
      ∧ chapterAt p2 i = some ch := by
  have hlt : i < p.chapters.length := by
    rw [chapterAt] at hch
    exact get?_some_lt_length hch
  -- the chapter dict appended by the copy handler
  set dupch : Chapter :=
    { instruction := ch.instruction, text := ch.text,
      versions := some (ch.versions.getD [ch.text]) } with hdupch
  set p1 : Project := { p with chapters := p.chapters ++ [dupch] } with hp1
  have hdup : dup_event st name i = save_project st name p1 := by
    rw [chapterAt] at hch
    simp only [dup_event, hload, duplicate_chapter, hch]
  have hload1 : load_project (save_project st name p1) name = some p1 :=
    save_load_roundtrip st name p1
  have hch1 : chapterAt p1 (p.chapters.length) = some dupch := by
    rw [chapterAt, hp1]
    exact get?_concat_len p.chapters dupch
  have hregen := regenerate_chapter_step g p1 (p.chapters.length) dupch hch1
  set p2 : Project :=
    { p1 with chapters := p1.chapters.set p.chapters.length (regeneratedChapter g p1 dupch) }
    with hp2
  have hevent : regen_event g (dup_event st name i) name p.chapters.length
      = save_project (save_project st name p1) name p2 := by
    rw [hdup]
    simp only [regen_event, hload1, hregen]
  refine ⟨p2, ?_, ?_⟩
  · rw [hevent]
    exact save_load_roundtrip _ name p2
  · rw [chapterAt, hp2]
    show (p1.chapters.set p.chapters.length (regeneratedChapter g p1 dupch)).get? i
      = some ch
    rw [get?_set_ne _ _ _ _ (by omega), hp1]
    show (p.chapters ++ [dupch]).get? i = some ch
    rw [get?_append_lt _ _ _ hlt]
    rw [chapterAt] at hch
    exact hch

/-- Witness for C2: duplicate the single chapter of the stored project
`X`, regenerate the duplicate with a generator returning fresh text, and
find the original chapter intact. -/
theorem duplicate_independence_witness :
    ∃ p2, load_project
        (regen_event (fun _ => "Anna burned the letter.")
          (dup_event (save_project [] "X" preexistingProj) "X" 0) "X"
          preexistingProj.chapters.length) "X"
        = some p2
      ∧ chapterAt p2 0 = some
          { instruction := "ch1", text := "Anna opened the letter.",
            versions := some ["Anna opened the letter."] } :=
  duplicate_independence (fun _ => "Anna burned the letter.")
    (save_project [] "X" preexistingProj) "X" 0 preexistingProj
    { instruction := "ch1", text := "Anna opened the letter.",
      versions := some ["Anna opened the letter."] }
    (save_load_roundtrip [] "X" preexistingProj) rfl

/-- Splitting a run of regenerate presses. -/
theorem regenIter_add (g : String → String) (i : Nat) (m n : Nat) (p : Project) :
    regenIter g i (m + n) p = (regenIter g i m p).bind (regenIter g i n) := by
  induction m generalizing p with
  | zero =>
    simp only [Nat.zero_add, regenIter]
    rfl
  | succ m ih =>
    rw [Nat.succ_add]
    simp only [regenIter]
    cases regenerate_chapter g p i with
    | error e => rfl
    | ok q => simpa using ih q

/-- Invariant of a run of regenerate presses on chapter `i`: starting
from a chapter whose `versions` is present with `text` cached as its last
entry, `n` presses succeed, extend `versions` by exactly `n` entries
without touching the existing ones, and keep `text` equal to the last
entry. -/
theorem regenIter_versions (g : String → String) (i : Nat) :
    ∀ (n : Nat) (p : Project) (ch : Chapter) (vs : List String),
      chapterAt p i = some ch → ch.versions = some vs → vs.getLast? = some ch.text →
      ∃ p' ch' ext, regenIter g i n p = .ok p' ∧ chapterAt p' i = some ch' ∧
        ch'.versions = some (vs ++ ext) ∧ ext.length = n ∧
        (vs ++ ext).getLast? = some ch'.text := by
  intro n
  induction n with
  | zero =>
    intro p ch vs h hv hlast
    exact ⟨p, ch, [], rfl, h, by simpa using hv, rfl, by simpa using hlast⟩
  | succ n ih =>
    intro p ch vs h hv hlast
    have hlt : i < p.chapters.length := by
      rw [chapterAt] at h
      exact get?_some_lt_length h
    have hstep := regenerate_chapter_step g p i ch h
    set t := g (build_prompt p ch.instruction) with ht
    set ch1 := regeneratedChapter g p ch with hch1def
    set p1 : Project := { p with chapters := p.chapters.set i ch1 } with hp1
    have hch1 : chapterAt p1 i = some ch1 := by
      rw [chapterAt, hp1]
      exact get?_set_self _ _ _ hlt
    have hv1 : ch1.versions = some (vs ++ [t]) := by
      simp [hch1def, regeneratedChapter, hv, ht]
    have hl1 : (vs ++ [t]).getLast? = some ch1.text := by
      simp [hch1def, regeneratedChapter, ht]
    obtain ⟨p', ch', ext, hiter, hat, hvers, hlen, hlast'⟩ :=
      ih p1 ch1 (vs ++ [t]) hch1 hv1 hl1
    refine ⟨p', ch', t :: ext, ?_, hat, ?_, ?_, ?_⟩
    · show (regenerate_chapter g p i).bind (regenIter g i n) = .ok p'
      rw [hstep]
      exact hiter
    · rw [hvers, ← List.append_cons]
    · simp [hlen]
    · rw [← List.append_cons] at hlast'
      exact hlast'

/-- C1. Version-history invariant: generate a chapter (its `versions`
starts as the one-element list holding its text), commit it at the end of
`project["chapters"]`, and press regenerate on it `N` times.  The run
succeeds, `versions` has length `N + 1`, `text` equals the last entry of
`versions`, and the history is append-only: after any earlier number
`n ≤ N` of presses the `versions` list is a prefix of the final one (so
no entry is ever removed or altered), with length `n + 1` and `text`
caching its last entry at every stage. -/
theorem version_history_invariant (p : Project) (instr : String)
    (g : String → String) (N : Nat) :
    ∃ pN chN vsN,
      regenIter g p.chapters.length N (commit_chapter p (gen_chapter g p instr)) = .ok pN
      ∧ chapterAt pN p.chapters.length = some chN
      ∧ chN.versions = some vsN
      ∧ vsN.length = N + 1
      ∧ vsN.getLast? = some chN.text
      ∧ ∀ n, n ≤ N → ∃ pn chn vsn,
          regenIter g p.chapters.length n (commit_chapter p (gen_chapter g p instr))
            = .ok pn
          ∧ chapterAt pn p.chapters.length = some chn
          ∧ chn.versions = some vsn
          ∧ vsn.length = n + 1
          ∧ vsn.getLast? = some chn.text
          ∧ vsn <+: vsN := by
  set i := p.chapters.length with hi
  set ch0 := gen_chapter g p instr with hch0def
  set p1 := commit_chapter p ch0 with hp1
  set t0 := g (build_prompt p instr) with ht0
  have hch0 : chapterAt p1 i = some ch0 := by
    rw [chapterAt, hp1, commit_chapter]
    exact get?_concat_len p.chapters ch0
  have hv0 : ch0.versions = some [t0] := rfl
  have hl0 : ([t0] : List String).getLast? = some ch0.text := rfl
  obtain ⟨pN, chN, extN, hN, hatN, hversN, hlenN, hlastN⟩ :=
    regenIter_versions g i N p1 ch0 [t0] hch0 hv0 hl0
  refine ⟨pN, chN, [t0] ++ extN, hN, hatN, hversN, by simp [hlenN], hlastN, ?_⟩
  intro n hn
  obtain ⟨pn, chn, extn, hniter, hatn, hversn, hlenn, hlastn⟩ :=
    regenIter_versions g i n p1 ch0 [t0] hch0 hv0 hl0
  refine ⟨pn, chn, [t0] ++ extn, hniter, hatn, hversn, by simp [hlenn], hlastn, ?_⟩
  obtain ⟨p'', ch'', ext'', hiter'', hat'', hvers'', _, _⟩ :=
    regenIter_versions g i (N - n) pn chn ([t0] ++ extn) hatn hversn hlastn
  have hdecomp : regenIter g i N p1 = regenIter g i (N - n) pn := by
    have hsum : n + (N - n) = N := by omega
    conv_lhs => rw [← hsum]
    rw [regenIter_add, hniter]
    rfl
  have hpN : p'' = pN := by
    rw [hdecomp, hiter''] at hN
    exact Except.ok.inj hN
  have hchN : ch'' = chN := by
    rw [hpN, hatN] at hat''
    exact (Option.some.inj hat'').symm
  refine ⟨ext'', ?_⟩
  rw [hchN, hversN] at hvers''
  exact (Option.some.inj hvers'').symm

/-- `str.strip()` on a string of the template's shape — a leading
newline, a body starting with `P` and ending with `.`, and a trailing
newline — removes exactly the two outer newlines. -/
theorem pyStrip_shape (mid : List Char) :
    pyStrip ⟨'\n' :: 'P' :: (mid ++ ['.', '\n'])⟩ = ⟨'P' :: (mid ++ ['.'])⟩ := by
  have h1 : isPySpace '\n' = true := by decide
  have h2 : isPySpace 'P' = false := by decide
  have h3 : isPySpace '.' = false := by decide
  simp [pyStrip, List.dropWhile_cons, h1, h2, h3, List.reverse_append]

set_option maxRecDepth 16384 in
/-- The stripped template, as a function of the four interpolated
strings: the leading and trailing newline go, everything else stays. -/
theorem pyStrip_promptTemplate (a b c d : String) :
    pyStrip (promptTemplate a b c d)
      = "Plán knihy:\n" ++ a ++
        "\n\nJsi profesionální český spisovatel beletrie.\n\n=== POSTAVY (MUSÍ ZŮSTAT KONZISTENTNÍ) ===\n" ++
        b ++
        "\n\n=== DOSAVADNÍ DĚJ ===\n" ++
        c ++
        "\n\n=== INSTRUKCE PRO NOVOU KAPITOLU ===\n" ++
        d ++
        "\n\nNapiš plnohodnotnou kapitolu v češtině.\nDbej na kontinuitu děje, konzistenci postav, dramatické dialogy a emocionální hloubku. Nepiš nic jako číslo, nebo název kapitoly, ani \"konec kapitoly\"." := by
  have hshape : promptTemplate a b c d
      = ⟨'\n' :: 'P' :: (("lán knihy:\n" : String).data ++ a.data ++
          ("\n\nJsi profesionální český spisovatel beletrie.\n\n=== POSTAVY (MUSÍ ZŮSTAT KONZISTENTNÍ) ===\n" : String).data ++
          b.data ++
          ("\n\n=== DOSAVADNÍ DĚJ ===\n" : String).data ++
          c.data ++
          ("\n\n=== INSTRUKCE PRO NOVOU KAPITOLU ===\n" : String).data ++
          d.data ++
          ("\n\nNapiš plnohodnotnou kapitolu v češtině.\nDbej na kontinuitu děje, konzistenci postav, dramatické dialogy a emocionální hloubku. Nepiš nic jako číslo, nebo název kapitoly, ani \"konec kapitoly\"" : String).data ++
          ['.', '\n'])⟩ := by
    apply String.ext
    have f1 : ("\nPlán knihy:\n" : String).data
        = '\n' :: 'P' :: ("lán knihy:\n" : String).data := rfl
    have f2 : ("\n\nNapiš plnohodnotnou kapitolu v češtině.\nDbej na kontinuitu děje, konzistenci postav, dramatické dialogy a emocionální hloubku. Nepiš nic jako číslo, nebo název kapitoly, ani \"konec kapitoly\".\n" : String).data
        = ("\n\nNapiš plnohodnotnou kapitolu v češtině.\nDbej na kontinuitu děje, konzistenci postav, dramatické dialogy a emocionální hloubku. Nepiš nic jako číslo, nebo název kapitoly, ani \"konec kapitoly\"" : String).data ++ ['.', '\n'] := rfl
    simp [promptTemplate, String.data_append, f1, f2]
  rw [hshape, pyStrip_shape]
  apply String.ext
  have f3 : ("Plán knihy:\n" : String).data = 'P' :: ("lán knihy:\n" : String).data := rfl
  have f4 : ("\n\nNapiš plnohodnotnou kapitolu v češtině.\nDbej na kontinuitu děje, konzistenci postav, dramatické dialogy a emocionální hloubku. Nepiš nic jako číslo, nebo název kapitoly, ani \"konec kapitoly\"." : String).data
      = ("\n\nNapiš plnohodnotnou kapitolu v češtině.\nDbej na kontinuitu děje, konzistenci postav, dramatické dialogy a emocionální hloubku. Nepiš nic jako číslo, nebo název kapitoly, ani \"konec kapitoly\"" : String).data ++ ['.'] := rfl
  simp [String.data_append, f3, f4]

/-- C7. Prompt structure: `build_prompt` returns, in this fixed order,
the plot text, the character roster rendered one line per character as
`- name: description` in insertion order (`renderCharacters`), the full
text of all prior chapters joined by a blank-line separator in narrative
order with `Kapitola n:` labels (`renderChapters`), and the new
instruction; and the result carries the literal authorial-constraint
sentence verbatim — plot continuity and character consistency
(`Dbej na kontinuitu děje, konzistenci postav, ...`) and the ban on
chapter numbers, titles and end-of-chapter markers
(`Nepiš nic jako číslo, nebo název kapitoly, ani "konec kapitoly".`). -/
theorem prompt_structure (p : Project) (instr : String) :
    build_prompt p instr
      = "Plán knihy:\n" ++ p.plot.getD "" ++
        "\n\nJsi profesionální český spisovatel beletrie.\n\n=== POSTAVY (MUSÍ ZŮSTAT KONZISTENTNÍ) ===\n" ++
        renderCharacters p.characters ++
        "\n\n=== DOSAVADNÍ DĚJ ===\n" ++
        renderChapters p.chapters ++
        "\n\n=== INSTRUKCE PRO NOVOU KAPITOLU ===\n" ++
        instr ++
        "\n\nNapiš plnohodnotnou kapitolu v češtině.\nDbej na kontinuitu děje, konzistenci postav, dramatické dialogy a emocionální hloubku. Nepiš nic jako číslo, nebo název kapitoly, ani \"konec kapitoly\"." := by
  rw [build_prompt]
  exact pyStrip_promptTemplate (p.plot.getD "") (renderCharacters p.characters)
    (renderChapters p.chapters) instr

end Writer
